import Mathlib

/-!
Verification of the simulated flight-controller demo (`nasa_macro.c`).

The C file simulates four memory-mapped 32-bit hardware registers
(`CTRL`, `STATUS`, `THRUST`, `SENS_TEMP`) behind a struct `HW`, and a
tiny control loop on top of them.  We embed the register bank as a
record of natural numbers (each register a `uint32_t`, so values are
reduced `% 2^32` wherever the C code performs a conversion), statuses
as `Int` (the C functions return `int`), and each C function as a pure
Lean function threading the register state explicitly.

The thrust cap `CFG_MAX_THRUST_N` is a compile-time constant selected
by the build profile (4000 for GROUND_BUILD, the default; 5000 for
FLIGHT_BUILD); the source gates it with
`#if CFG_MAX_THRUST_N > 6000 # error`.  We parameterise the operations
by `cap` so the theorems cover both build profiles, and instantiate
with the GROUND_BUILD value 4000 for the concrete demo run.
-/

/-- `2^32`, the modulus of `uint32_t` arithmetic. -/
def U32 : Nat := 2 ^ 32

/-- Reading a `uint32_t` value as a C `int` (the cast `(int)REG32(SENS_TEMP)`
in `read_sensor_riscv`/`read_sensor_arm`): two's-complement reinterpretation. -/
def toInt32 (u : Nat) : Int :=
  if u % U32 < 2 ^ 31 then (u % U32 : Int) else (u % U32 : Int) - (U32 : Int)

/-- The simulated register bank (`hw_regs_t`): four `volatile uint32_t` slots. -/
structure hw_regs_t where
  CTRL : Nat
  STATUS : Nat
  THRUST : Nat
  SENS_TEMP : Nat
deriving DecidableEq

/-- `#define CTRL_ENABLE (1u<<0)` -/
def CTRL_ENABLE : Nat := 1

/-- `#define CTRL_FAULT (1u<<1)` -/
def CTRL_FAULT : Nat := 2

/-- `ERR_OK = 0` from the X-macro `ERROR_TABLE`. -/
def ERR_OK : Int := 0

/-- `ERR_SENSOR_FAIL = 10` from the X-macro `ERROR_TABLE`. -/
def ERR_SENSOR_FAIL : Int := 10

/-- `ERR_THRUST_RANGE = 20` from the X-macro `ERROR_TABLE`. -/
def ERR_THRUST_RANGE : Int := 20

/-- `ERR_SYSTEM_FAULT = 30` from the X-macro `ERROR_TABLE`. -/
def ERR_SYSTEM_FAULT : Int := 30

/-- `CFG_MAX_THRUST_N` under GROUND_BUILD (the default build profile). -/
def CFG_MAX_THRUST_N : Nat := 4000

/-- `ENABLE_SYSTEM()`: `REG32(CTRL) |= CTRL_ENABLE`. -/
def ENABLE_SYSTEM (regs : hw_regs_t) : hw_regs_t :=
  { regs with CTRL := regs.CTRL ||| CTRL_ENABLE }

/-- `DISABLE_SYSTEM()`: `REG32(CTRL) &= ~CTRL_ENABLE`; on `uint32_t`,
`~CTRL_ENABLE` is `0xFFFFFFFE = 2^32 - 1 - CTRL_ENABLE`. -/
def DISABLE_SYSTEM (regs : hw_regs_t) : hw_regs_t :=
  { regs with CTRL := regs.CTRL &&& (U32 - 1 - CTRL_ENABLE) }

/-- `SIGNAL_FAULT()`: `REG32(CTRL) |= CTRL_FAULT`. -/
def SIGNAL_FAULT (regs : hw_regs_t) : hw_regs_t :=
  { regs with CTRL := regs.CTRL ||| CTRL_FAULT }

/-- The fault test `REG32(CTRL) & CTRL_FAULT` used in `run_control_loop_once`
(the spec's `fault_is_set()` accessor of the Register Bank). -/
def fault_is_set (regs : hw_regs_t) : Bool :=
  regs.CTRL &&& CTRL_FAULT != 0

/-- `SET_THRUST_N(newton)`: cast the request to `uint32_t`, clamp anything
above the cap down to the cap, and write the result to `THRUST`. -/
def SET_THRUST_N (cap : Nat) (newton : Nat) (regs : hw_regs_t) : hw_regs_t :=
  let n0 := newton % U32
  let n := if n0 > cap then cap else n0
  { regs with THRUST := n }

/-- `read_sensor_riscv` (identical to `read_sensor_arm`): writes
`(int)REG32(SENS_TEMP)` through the out-pointer and returns 0.
Modelled as the pair (return code, out value). -/
def read_sensor_riscv (regs : hw_regs_t) : Int × Int :=
  (0, toInt32 regs.SENS_TEMP)

/-- `READ_TEMP_RAW` resolves to `read_sensor_riscv` (CPU_RISCV is the
default architecture; both sensor readers are identical anyway). -/
def READ_TEMP_RAW (regs : hw_regs_t) : Int × Int :=
  read_sensor_riscv regs

/-- `poll_temperature_c`: on a non-zero sensor return code, `ERR_SENSOR_FAIL`
(the out value is then the caller's initialisation, 0); otherwise `ERR_OK`
and the raw reading (the "linearization" is the identity). -/
def poll_temperature_c (regs : hw_regs_t) : Int × Int :=
  let r := READ_TEMP_RAW regs
  if r.fst != 0 then (ERR_SENSOR_FAIL, 0)
  else (ERR_OK, r.snd)

/-- `command_thrust(desired_n)`: reject with `ERR_THRUST_RANGE` if the
`uint32_t` argument exceeds `CFG_MAX_THRUST_N * 2`, without touching any
register; otherwise delegate to `SET_THRUST_N` and return `ERR_OK`. -/
def command_thrust (cap : Nat) (desired_n : Nat) (regs : hw_regs_t) :
    Int × hw_regs_t :=
  let d := desired_n % U32
  if d > cap * 2 then (ERR_THRUST_RANGE, regs)
  else (ERR_OK, SET_THRUST_N cap d regs)

/-- The demo policy of `run_control_loop_once`:
`desired = (temp_c < 30) ? 3000 : 1500`. -/
def policy_thrust (temp_c : Int) : Nat :=
  if temp_c < 30 then 3000 else 1500

/-- `run_control_loop_once`: poll the temperature (propagating a non-OK
status with no further action), command the policy thrust (propagating a
non-OK status), then report `ERR_SYSTEM_FAULT` if the CTRL fault bit is
set, else `ERR_OK`. -/
def run_control_loop_once (cap : Nat) (regs : hw_regs_t) : Int × hw_regs_t :=
  let p := poll_temperature_c regs
  if p.fst != ERR_OK then (p.fst, regs)
  else
    let c := command_thrust cap (policy_thrust p.snd) regs
    if c.fst != ERR_OK then (c.fst, c.snd)
    else if fault_is_set c.snd then (ERR_SYSTEM_FAULT, c.snd)
    else (ERR_OK, c.snd)

/-- `init_system`: `ENABLE_SYSTEM()`, seed `SENS_TEMP` to 42, return 0. -/
def init_system (regs : hw_regs_t) : Int × hw_regs_t :=
  let r1 := ENABLE_SYSTEM regs
  (0, { r1 with SENS_TEMP := 42 })

/-- The per-iteration mutation in `main`: `REG32(SENS_TEMP) += 5`
(`uint32_t` addition). -/
def inc_temp_5 (regs : hw_regs_t) : hw_regs_t :=
  { regs with SENS_TEMP := (regs.SENS_TEMP + 5) % U32 }

/-- `error_to_str`: the switch generated from the X-macro `ERROR_TABLE`,
with `default: return "Unknown"`. The C enum `error_t` has the underlying
type `int`, so the argument ranges over all integers. -/
def error_to_str (e : Int) : String :=
  if e = ERR_OK then "No Error"
  else if e = ERR_SENSOR_FAIL then "Sensor Failure"
  else if e = ERR_THRUST_RANGE then "Thrust Out of Range"
  else if e = ERR_SYSTEM_FAULT then "System Fault"
  else "Unknown"

/-! ## Helper lemmas on the fault bit -/

/-- The fault test is exactly bit 1 of `CTRL`. -/
theorem fault_is_set_eq_testBit (regs : hw_regs_t) :
    fault_is_set regs = regs.CTRL.testBit 1 := by
  unfold fault_is_set CTRL_FAULT
  have h : regs.CTRL &&& 2 = (regs.CTRL.testBit 1).toNat * 2 := by
    simpa using Nat.and_two_pow regs.CTRL 1
  rw [h]
  cases regs.CTRL.testBit 1 <;> rfl

/-- Setting the ENABLE bit does not affect bit 1. -/
theorem testBit_one_lor_enable (x : Nat) :
    (x ||| CTRL_ENABLE).testBit 1 = x.testBit 1 := by
  rw [CTRL_ENABLE, Nat.testBit_lor]
  have h : Nat.testBit 1 1 = false := by decide
  rw [h, Bool.or_false]

/-- Setting the FAULT bit makes bit 1 true. -/
theorem testBit_one_lor_fault (x : Nat) :
    (x ||| CTRL_FAULT).testBit 1 = true := by
  rw [CTRL_FAULT, Nat.testBit_lor]
  have h : Nat.testBit 2 1 = true := by decide
  rw [h, Bool.or_true]

/-- Clearing the ENABLE bit (mask `~CTRL_ENABLE = 0xFFFFFFFE`) does not
affect bit 1. -/
theorem testBit_one_land_mask (x : Nat) :
    (x &&& (U32 - 1 - CTRL_ENABLE)).testBit 1 = x.testBit 1 := by
  rw [Nat.testBit_land]
  have h : Nat.testBit (U32 - 1 - CTRL_ENABLE) 1 = true := by decide
  rw [h, Bool.and_true]

/-- `fault_is_set` reads only `CTRL`. -/
theorem fault_is_set_eq_of_ctrl_eq (r1 r2 : hw_regs_t) (h : r1.CTRL = r2.CTRL) :
    fault_is_set r1 = fault_is_set r2 := by
  unfold fault_is_set
  rw [h]

/-- `SET_THRUST_N` leaves `CTRL`, `STATUS` and `SENS_TEMP` unchanged. -/
theorem SET_THRUST_N_frame (cap n : Nat) (regs : hw_regs_t) :
    (SET_THRUST_N cap n regs).CTRL = regs.CTRL ∧
    (SET_THRUST_N cap n regs).STATUS = regs.STATUS ∧
    (SET_THRUST_N cap n regs).SENS_TEMP = regs.SENS_TEMP := by
  unfold SET_THRUST_N
  exact ⟨rfl, rfl, rfl⟩

/-- `command_thrust` leaves `CTRL`, `STATUS` and `SENS_TEMP` unchanged. -/
theorem command_thrust_frame (cap d : Nat) (regs : hw_regs_t) :
    (command_thrust cap d regs).snd.CTRL = regs.CTRL ∧
    (command_thrust cap d regs).snd.STATUS = regs.STATUS ∧
    (command_thrust cap d regs).snd.SENS_TEMP = regs.SENS_TEMP := by
  refine ⟨?_, ?_, ?_⟩ <;>
    (unfold command_thrust SET_THRUST_N; dsimp only; split <;> rfl)

/-! ## C1 – C4 -/

/-- C1: for every requested thrust value (any unsigned integer, even above
twice the cap), after `SET_THRUST_N` the `THRUST` register is at most the
configured cap. -/
theorem C1_set_thrust_le_cap (cap newton : Nat) (regs : hw_regs_t) :
    (SET_THRUST_N cap newton regs).THRUST ≤ cap := by
  unfold SET_THRUST_N
  dsimp only
  split
  · exact Nat.le_refl cap
  · omega

/-- C2: for every `uint32_t` request `r > 2*cap`, `command_thrust` returns
`ERR_THRUST_RANGE` and leaves the whole register bank (in particular
`THRUST`) unchanged. -/
theorem C2_command_thrust_reject (cap r : Nat) (regs : hw_regs_t)
    (hr : r < U32) (h : cap * 2 < r) :
    (command_thrust cap r regs).fst = ERR_THRUST_RANGE ∧
    (command_thrust cap r regs).snd = regs := by
  unfold command_thrust
  rw [Nat.mod_eq_of_lt hr, if_pos h]
  exact ⟨rfl, rfl⟩

/-- Witness for C2 at `cap = 4000`, `r = 8001`. -/
theorem C2_command_thrust_reject_witness :
    (command_thrust 4000 8001 ⟨0, 0, 0, 0⟩).fst = ERR_THRUST_RANGE ∧
    (command_thrust 4000 8001 ⟨0, 0, 0, 0⟩).snd = ⟨0, 0, 0, 0⟩ :=
  C2_command_thrust_reject 4000 8001 ⟨0, 0, 0, 0⟩ (by decide) (by decide)

/-- C3: for every `uint32_t` request `r` with `cap < r ≤ 2*cap`,
`command_thrust` returns `ERR_OK` and afterwards `THRUST` equals the cap
(clamped, not rejected; in particular `r = 2*cap` is accepted). -/
theorem C3_command_thrust_clamp (cap r : Nat) (regs : hw_regs_t)
    (hr : r < U32) (h1 : cap < r) (h2 : r ≤ cap * 2) :
    (command_thrust cap r regs).fst = ERR_OK ∧
    (command_thrust cap r regs).snd.THRUST = cap := by
  unfold command_thrust
  rw [Nat.mod_eq_of_lt hr, if_neg (by omega)]
  refine ⟨rfl, ?_⟩
  unfold SET_THRUST_N
  dsimp only
  rw [Nat.mod_eq_of_lt hr, if_pos h1]

/-- Witness for C3 at `cap = 4000`, `r = 8000 = 2*cap`. -/
theorem C3_command_thrust_clamp_witness :
    (command_thrust 4000 8000 ⟨0, 0, 0, 0⟩).fst = ERR_OK ∧
    (command_thrust 4000 8000 ⟨0, 0, 0, 0⟩).snd.THRUST = 4000 :=
  C3_command_thrust_clamp 4000 8000 ⟨0, 0, 0, 0⟩ (by decide) (by decide) (by decide)

/-- C4: for every `uint32_t` request `r ≤ cap`, `SET_THRUST_N` writes
exactly `r` to `THRUST`. -/
theorem C4_set_thrust_exact (cap r : Nat) (regs : hw_regs_t)
    (hr : r < U32) (h : r ≤ cap) :
    (SET_THRUST_N cap r regs).THRUST = r := by
  unfold SET_THRUST_N
  dsimp only
  rw [Nat.mod_eq_of_lt hr, if_neg (by omega)]

/-- Witness for C4 at `cap = 4000`, `r = 1500`. -/
theorem C4_set_thrust_exact_witness :
    (SET_THRUST_N 4000 1500 ⟨0, 0, 0, 0⟩).THRUST = 1500 :=
  C4_set_thrust_exact 4000 1500 ⟨0, 0, 0, 0⟩ (by decide) (by decide)

/-- Shared frame lemma: `run_control_loop_once` leaves `CTRL`, `STATUS`
and `SENS_TEMP` unchanged (only `THRUST` may be written). -/
theorem run_once_frame_aux (cap : Nat) (regs : hw_regs_t) :
    (run_control_loop_once cap regs).snd.CTRL = regs.CTRL ∧
    (run_control_loop_once cap regs).snd.STATUS = regs.STATUS ∧
    (run_control_loop_once cap regs).snd.SENS_TEMP = regs.SENS_TEMP := by
  have hc := command_thrust_frame cap
    (policy_thrust (poll_temperature_c regs).snd) regs
  unfold run_control_loop_once
  dsimp only
  split
  · exact ⟨rfl, rfl, rfl⟩
  · split
    · exact hc
    · split
      · exact hc
      · exact hc

/-! ## C10, C6, C7 -/

/-- C10: for every starting state, `run_control_loop_once` modifies at most
the `THRUST` register — `CTRL`, `STATUS` and `SENS_TEMP` are unchanged
(the per-iteration temperature increment is done by `main`, not here). -/
theorem C10_run_once_frame (cap : Nat) (regs : hw_regs_t) :
    (run_control_loop_once cap regs).snd.CTRL = regs.CTRL ∧
    (run_control_loop_once cap regs).snd.STATUS = regs.STATUS ∧
    (run_control_loop_once cap regs).snd.SENS_TEMP = regs.SENS_TEMP :=
  run_once_frame_aux cap regs

/-- C6: once the FAULT bit of `CTRL` is set, it stays set across every
state-modifying operation of the demonstrated lifecycle:
`run_control_loop_once`, `command_thrust`, `SET_THRUST_N`,
`ENABLE_SYSTEM` and `DISABLE_SYSTEM`. (`poll_temperature_c` is read-only
in the embedding — it writes no register — so it cannot clear the bit.) -/
theorem C6_fault_latched (cap r n : Nat) (regs : hw_regs_t)
    (h : fault_is_set regs = true) :
    fault_is_set (run_control_loop_once cap regs).snd = true ∧
    fault_is_set (command_thrust cap r regs).snd = true ∧
    fault_is_set (SET_THRUST_N cap n regs) = true ∧
    fault_is_set (ENABLE_SYSTEM regs) = true ∧
    fault_is_set (DISABLE_SYSTEM regs) = true := by
  refine ⟨?_, ?_, ?_, ?_, ?_⟩
  · rw [fault_is_set_eq_of_ctrl_eq _ regs (run_once_frame_aux cap regs).1]
    exact h
  · rw [fault_is_set_eq_of_ctrl_eq _ regs (command_thrust_frame cap r regs).1]
    exact h
  · rw [fault_is_set_eq_of_ctrl_eq _ regs (SET_THRUST_N_frame cap n regs).1]
    exact h
  · rw [fault_is_set_eq_testBit] at h ⊢
    show (regs.CTRL ||| CTRL_ENABLE).testBit 1 = true
    rw [testBit_one_lor_enable]
    exact h
  · rw [fault_is_set_eq_testBit] at h ⊢
    show (regs.CTRL &&& (U32 - 1 - CTRL_ENABLE)).testBit 1 = true
    rw [testBit_one_land_mask]
    exact h

/-- Witness for C6 at `cap = 4000`, `r = n = 1`, state with FAULT set. -/
theorem C6_fault_latched_witness :
    fault_is_set (run_control_loop_once 4000 ⟨2, 0, 0, 0⟩).snd = true ∧
    fault_is_set (command_thrust 4000 1 ⟨2, 0, 0, 0⟩).snd = true ∧
    fault_is_set (SET_THRUST_N 4000 1 ⟨2, 0, 0, 0⟩) = true ∧
    fault_is_set (ENABLE_SYSTEM ⟨2, 0, 0, 0⟩) = true ∧
    fault_is_set (DISABLE_SYSTEM ⟨2, 0, 0, 0⟩) = true :=
  C6_fault_latched 4000 1 1 ⟨2, 0, 0, 0⟩ (by decide)

/-- C7 counterexample: `init_system` never clears the FAULT bit, so from a
starting state whose FAULT bit is already set (`CTRL = CTRL_FAULT`),
`fault_is_set` is still true immediately after `init_system` — the claim
"false for every state from which initialize() is called" fails. -/
theorem C7_init_fault_cex :
    fault_is_set (init_system ⟨2, 0, 0, 0⟩).snd = true := by decide

/-- C7 amended: `fault_is_set` is false immediately after `init_system`
for every starting state whose FAULT bit is not already set (in
particular from the zero-initialised startup state `HW = {0}`). -/
theorem C7_init_fault_clear (regs : hw_regs_t)
    (h : fault_is_set regs = false) :
    fault_is_set (init_system regs).snd = false := by
  rw [fault_is_set_eq_testBit] at h ⊢
  show (regs.CTRL ||| CTRL_ENABLE).testBit 1 = false
  rw [testBit_one_lor_enable]
  exact h

/-- Witness for the amended C7 at the zero-initialised startup state. -/
theorem C7_init_fault_clear_witness :
    fault_is_set (init_system ⟨0, 0, 0, 0⟩).snd = false :=
  C7_init_fault_clear ⟨0, 0, 0, 0⟩ (by decide)

/-! ## C5 -/

/-- The demo policy only ever commands 3000 or 1500 N, both below `2^32`. -/
theorem policy_thrust_lt_U32 (t : Int) : policy_thrust t < U32 := by
  unfold policy_thrust U32
  split <;> norm_num

/-- C5: from any state in which the thrust command succeeds (the policy
value is within the gross-range gate; the temperature poll always
succeeds), calling `SIGNAL_FAULT` and then `run_control_loop_once`
returns `ERR_SYSTEM_FAULT`, and `THRUST` ends up holding the value
commanded by the policy during that same call (clamped by the register
bank if above the cap): the thrust write happens before the fault check. -/
theorem C5_run_once_after_fault (cap : Nat) (regs : hw_regs_t)
    (h : policy_thrust (toInt32 regs.SENS_TEMP) ≤ cap * 2) :
    (run_control_loop_once cap (SIGNAL_FAULT regs)).fst = ERR_SYSTEM_FAULT ∧
    (run_control_loop_once cap (SIGNAL_FAULT regs)).snd.THRUST =
      (if cap < policy_thrust (toInt32 regs.SENS_TEMP) then cap
       else policy_thrust (toInt32 regs.SENS_TEMP)) := by
  have hpoll : poll_temperature_c (SIGNAL_FAULT regs)
      = (ERR_OK, toInt32 regs.SENS_TEMP) := rfl
  have hm : policy_thrust (toInt32 regs.SENS_TEMP) % U32
      = policy_thrust (toInt32 regs.SENS_TEMP) :=
    Nat.mod_eq_of_lt (policy_thrust_lt_U32 _)
  have hcmd : command_thrust cap (policy_thrust (toInt32 regs.SENS_TEMP))
        (SIGNAL_FAULT regs)
      = (ERR_OK, SET_THRUST_N cap (policy_thrust (toInt32 regs.SENS_TEMP))
          (SIGNAL_FAULT regs)) := by
    unfold command_thrust
    dsimp only
    rw [hm, if_neg (by omega)]
  have hfault : fault_is_set (SET_THRUST_N cap
      (policy_thrust (toInt32 regs.SENS_TEMP)) (SIGNAL_FAULT regs)) = true := by
    rw [fault_is_set_eq_of_ctrl_eq _ (SIGNAL_FAULT regs)
      (SET_THRUST_N_frame cap _ (SIGNAL_FAULT regs)).1]
    rw [fault_is_set_eq_testBit]
    exact testBit_one_lor_fault regs.CTRL
  unfold run_control_loop_once
  dsimp only
  rw [hpoll]
  dsimp only
  rw [hcmd]
  dsimp only
  simp only [bne_self_eq_false, Bool.false_eq_true, if_false, hfault, if_true]
  refine ⟨trivial, ?_⟩
  unfold SET_THRUST_N
  dsimp only
  rw [hm]

/-- Witness for C5 at `cap = 4000` from the freshly initialised state
(temperature 42, policy commands 1500 ≤ 8000). -/
theorem C5_run_once_after_fault_witness :
    (run_control_loop_once 4000 (SIGNAL_FAULT ⟨1, 0, 0, 42⟩)).fst
      = ERR_SYSTEM_FAULT ∧
    (run_control_loop_once 4000 (SIGNAL_FAULT ⟨1, 0, 0, 42⟩)).snd.THRUST =
      (if 4000 < policy_thrust (toInt32 (hw_regs_t.mk 1 0 0 42).SENS_TEMP)
       then 4000
       else policy_thrust (toInt32 (hw_regs_t.mk 1 0 0 42).SENS_TEMP)) :=
  C5_run_once_after_fault 4000 ⟨1, 0, 0, 42⟩ (by decide)

/-! ## C8, C9 -/

/-- C8: with `cap = 4000` (GROUND_BUILD) and `SENS_TEMP` seeded to 42 by
`init_system` from the zero-initialised state, four successive
`run_control_loop_once` calls — with `SENS_TEMP += 5` between calls and
no fault signalled — observe the temperatures 42, 47, 52, 57 (all ≥ 30),
each command thrust 1500, and each return `ERR_OK`. -/
theorem C8_demo_sequence :
    (let s0 := (init_system ⟨0, 0, 0, 0⟩).snd
     let r1 := run_control_loop_once CFG_MAX_THRUST_N s0
     let s1 := inc_temp_5 r1.snd
     let r2 := run_control_loop_once CFG_MAX_THRUST_N s1
     let s2 := inc_temp_5 r2.snd
     let r3 := run_control_loop_once CFG_MAX_THRUST_N s2
     let s3 := inc_temp_5 r3.snd
     let r4 := run_control_loop_once CFG_MAX_THRUST_N s3
     (toInt32 s0.SENS_TEMP = 42 ∧ 30 ≤ toInt32 s0.SENS_TEMP ∧
       r1.fst = ERR_OK ∧ r1.snd.THRUST = 1500) ∧
     (toInt32 s1.SENS_TEMP = 47 ∧ 30 ≤ toInt32 s1.SENS_TEMP ∧
       r2.fst = ERR_OK ∧ r2.snd.THRUST = 1500) ∧
     (toInt32 s2.SENS_TEMP = 52 ∧ 30 ≤ toInt32 s2.SENS_TEMP ∧
       r3.fst = ERR_OK ∧ r3.snd.THRUST = 1500) ∧
     (toInt32 s3.SENS_TEMP = 57 ∧ 30 ≤ toInt32 s3.SENS_TEMP ∧
       r4.fst = ERR_OK ∧ r4.snd.THRUST = 1500)) := by
  decide

/-- C9: the error-message lookup is total — each of the four codes of the
closed enumeration maps to its fixed non-empty message, and every integer
outside the enumeration maps to the fixed string "Unknown". -/
theorem C9_error_table_total :
    (error_to_str ERR_OK = "No Error" ∧
     error_to_str ERR_SENSOR_FAIL = "Sensor Failure" ∧
     error_to_str ERR_THRUST_RANGE = "Thrust Out of Range" ∧
     error_to_str ERR_SYSTEM_FAULT = "System Fault") ∧
    (error_to_str ERR_OK ≠ "" ∧ error_to_str ERR_SENSOR_FAIL ≠ "" ∧
     error_to_str ERR_THRUST_RANGE ≠ "" ∧
     error_to_str ERR_SYSTEM_FAULT ≠ "") ∧
    (∀ e : Int, e ≠ ERR_OK → e ≠ ERR_SENSOR_FAIL → e ≠ ERR_THRUST_RANGE →
      e ≠ ERR_SYSTEM_FAULT → error_to_str e = "Unknown") := by
  refine ⟨by decide, by decide, ?_⟩
  intro e h0 h10 h20 h30
  unfold error_to_str
  rw [if_neg h0, if_neg h10, if_neg h20, if_neg h30]

/-- Witness for C9's unknown-code branch at `e = -7`. -/
theorem C9_error_table_total_witness : error_to_str (-7) = "Unknown" :=
  C9_error_table_total.2.2 (-7) (by decide) (by decide) (by decide) (by decide)
